import Mathlib

/-!
Verification of the IP checker utility (`project3.v2.py`, with the legacy
one-shot variant in `project3.py`) against its natural-language specification.

The Python code is shallowly embedded:
  * a JSON scalar value is `Value` (string / number / boolean); JSON `null`
    and a missing dictionary key both surface through Python's `dict.get`
    as `None`, so both are modelled by `Option.none`;
  * a raw record (the parsed JSON object) is read only through `.get`, so it
    is modelled as a total function `String → Option Value`;
  * the dictionaries the program builds (`normalized`, the CSV row dict) are
    modelled as insertion-ordered association lists, matching Python 3.7+
    dict semantics (assignment to an existing key updates it in place,
    assignment to a new key appends it);
  * Python numbers are modelled as `Int`: the program never does arithmetic
    on them, it only tests truthiness (`0`/`0.0` falsy) and membership;
  * fallible code returns `Except`; side-effecting code (file append,
    clock, scheduler loop) is modelled by explicit state passing.
-/

set_option autoImplicit false

namespace IpChecker

/-- A non-null JSON scalar value as Python sees it after `json.load` /
`response.json()` (strings, numbers, booleans).  JSON arrays/objects are not
produced by the geolocation endpoints and are omitted. -/
inductive Value where
  | vstr (s : String)
  | vnum (n : Int)
  | vbool (b : Bool)
  deriving DecidableEq, Repr

/-- Python's `":" in s` for a string `s`: since the needle is a single
character, substring containment is exactly occurrence of the character
`':'` in `s`. -/
def containsColon (s : String) : Bool :=
  s.data.contains ':'

/-- Python truthiness of a scalar: `""`, `0` and `False` are falsy. -/
def truthy : Value → Bool
  | .vstr s => !(s == "")
  | .vnum n => !(n == 0)
  | .vbool b => b

/-- Truthiness of a possibly-`None` Python value (`None` is falsy). -/
def otruthy : Option Value → Bool
  | none => false
  | some v => truthy v

/-- Python's `a or b`: returns `a` when `a` is truthy, else `b`
(which may itself be falsy or `None`). -/
def pyOr (a b : Option Value) : Option Value :=
  if otruthy a then a else b

/-- A raw record: the parsed JSON object returned by the API or mock file,
observed by the program only through `dict.get` (absent key ⇒ `None`). -/
abbrev RawRecord : Type := String → Option Value

/-- A Python dict built by the program, as an insertion-ordered association
list.  A stored value of `none` is a stored Python `None`. -/
abbrev PyDict : Type := List (String × Option Value)

/-- `d.get(k)` / `d[k]` lookup: first entry with the key, else `None`. -/
def dget (d : PyDict) (k : String) : Option Value :=
  match d.find? (fun p => p.1 == k) with
  | some p => p.2
  | none => none

/-- `d[k] = v` assignment: update the (unique, in real Python dicts) entry
in place when the key is present, else append the new entry at the end. -/
def dset : PyDict → String → Option Value → PyDict
  | [], k, v => [(k, v)]
  | p :: rest, k, v => if p.1 == k then (k, v) :: rest else p :: dset rest k v

/-- `list(d.keys())` in insertion order. -/
def dkeys (d : PyDict) : List String :=
  d.map Prod.fst

/-- The Python exception raised by `":" in ip` when `ip` is not a string
(nor a container): `TypeError`. -/
inductive PyError where
  | typeError
  deriving DecidableEq, Repr

/-- The resolved `ip` value of `normalize_data` (line 67):
`data.get("ip") or data.get("query") or data.get("ip_address")`. -/
def resolvedIp (data : RawRecord) : Option Value :=
  pyOr (data "ip") (pyOr (data "query") (data "ip_address"))

/-- Line 69: `"IPv6" if ip and ":" in ip else "IPv4"`.  When `ip` is falsy
(including `None` and `""`) the conjunction short-circuits to the `else`
branch; when `ip` is truthy, Python evaluates `":" in ip`, which raises
`TypeError` unless `ip` is a string. -/
def computeVersion (ip : Option Value) : Except PyError String :=
  if otruthy ip then
    match ip with
    | some (.vstr s) => .ok (if containsColon s then "IPv6" else "IPv4")
    | _ => .error .typeError
  else
    .ok "IPv4"

/-- `normalize_data` (project3.v2.py lines 64–83), key for key in the order
the Python code assigns them. -/
def normalize_data (data : RawRecord) : Except PyError PyDict :=
  match computeVersion (resolvedIp data) with
  | .error e => .error e
  | .ok ver => .ok
      [ ("ip", resolvedIp data),
        ("version", some (.vstr ver)),
        ("city", data "city"),
        ("region", pyOr (data "region") (data "region_name")),
        ("country", pyOr (data "country_name") (data "country")),
        ("country_code", pyOr (data "country") (data "country_code")),
        ("latitude", pyOr (data "latitude") (data "lat")),
        ("longitude", pyOr (data "longitude") (pyOr (data "lon") (data "lng"))),
        ("timezone", data "timezone"),
        ("isp", pyOr (data "org") (data "isp")),
        ("asn", pyOr (data "asn") (data "as")),
        ("org", data "org") ]

/-- The raw record with every key absent (the empty JSON object). -/
def rawEmpty : RawRecord := fun _ => none

/-- Modelled from the spec's candidate table (§4.2, "first … candidate wins,
left to right"), with Python `or` truthiness: the first truthy candidate's
value; when every candidate is falsy, the value of the last candidate
(possibly `None`).  This is the data-driven form the spec's design notes ask
for; the theorems below compare `normalize_data`'s literal `or`-chains
against it. -/
def resolveCandidates (data : RawRecord) : List String → Option Value
  | [] => none
  | [k] => data k
  | k :: k2 :: rest =>
      if otruthy (data k) then data k else resolveCandidates data (k2 :: rest)

/-- Lines 149–151 of `main`: `if args.manual_ip:` (truthy ⇔ the flag was
given with a non-empty string) overwrite `data["ip"]` and recompute
`data["version"]` from the override via `":" in args.manual_ip` (always a
string, so no `TypeError` here). -/
def applyManualIp (data : PyDict) (manualIp : Option String) : PyDict :=
  match manualIp with
  | none => data
  | some m =>
      if m == "" then data
      else
        dset (dset data "ip" (some (.vstr m)))
          "version" (some (.vstr (if containsColon m then "IPv6" else "IPv4")))

/-- `str(v)` as the `csv` module renders a cell: `None` becomes the empty
string, a string is written as-is, numbers and booleans via `str`. -/
def csvCell : Option Value → String
  | none => ""
  | some (.vstr s) => s
  | some (.vnum n) => toString n
  | some (.vbool b) => if b then "True" else "False"

/-- The row dict of `append_history_csv` (lines 100–102): start from
`{"timestamp": now + "Z"}`, then `row[f] = data.get(f)` for each selected
field in order (overwriting the timestamp when `"timestamp"` is itself a
selected field). -/
def historyRowDict (fields : List String) (data : PyDict) (now : String) : PyDict :=
  fields.foldl (fun r f => dset r f (dget data f))
    [("timestamp", some (.vstr (now ++ "Z")))]

/-- One CSV data row as `csv.DictWriter.writerow` emits it: one cell per
field name in `["timestamp"] + fields`, looked up in the row dict
(`rowdict.get(key, restval=None)`) and rendered by the `csv` writer. -/
def historyRow (fields : List String) (data : PyDict) (now : String) : List String :=
  ("timestamp" :: fields).map (fun k => csvCell (dget (historyRowDict fields data now) k))

/-- `append_history_csv` (lines 94–103) as a transformation of the CSV
file's row-level contents.  `contents = none` models a path where
`os.path.isfile` is false (the file does not exist yet; opening in append
mode then creates it empty); `some rows` models an existing file.  `now`
stands for `datetime.utcnow().isoformat()` — the current UTC time in
ISO-8601 form — to which the code appends `"Z"`. -/
def append_history_csv (contents : Option (List (List String)))
    (fields : List String) (data : PyDict) (now : String) : List (List String) :=
  let existing := match contents with
    | none => [("timestamp" :: fields)]
    | some rows => rows
  existing ++ [historyRow fields data now]

/-- The Python exceptions `main`'s `try` block can see, classified by the
`except` clauses on lines 161–170.  `requestsJsonDecode` is
`requests.exceptions.JSONDecodeError` as raised by `response.json()` on an
invalid live HTTP body (requests ≥ 2.27): it subclasses both
`requests.RequestException` and `json.JSONDecodeError`. -/
inductive PyExc where
  | requestException
  | fileNotFound
  | jsonDecode
  | requestsJsonDecode
  | otherExc
  deriving DecidableEq, Repr

/-- Membership in `requests.RequestException`. -/
def isRequestException : PyExc → Bool
  | .requestException => true
  | .requestsJsonDecode => true
  | _ => false

/-- Membership in `FileNotFoundError`. -/
def isFileNotFound : PyExc → Bool
  | .fileNotFound => true
  | _ => false

/-- Membership in `json.JSONDecodeError`. -/
def isJsonDecode : PyExc → Bool
  | .jsonDecode => true
  | .requestsJsonDecode => true
  | _ => false

/-- Whether an exception makes `main`'s loop `break` (lines 161–170):
Python tries the `except` clauses in source order, so the first matching
class decides.  `except requests.RequestException` logs and continues;
`except FileNotFoundError` and `except json.JSONDecodeError` log and
`break`; the final `except Exception` logs and continues. -/
def excBreaksLoop (e : PyExc) : Bool :=
  if isRequestException e then false
  else if isFileNotFound e then true
  else if isJsonDecode e then true
  else false

/-- Outcome of one iteration of the `try` block: the whole
fetch/normalize/present/persist body ran, or some exception was raised. -/
inductive CycleResult where
  | success
  | raised (e : PyExc)
  deriving DecidableEq, Repr

/-- How the scheduler loop ended: `Done` (the `while run_count < count`
condition, or the `run_count >= count` check, ended it) versus `Aborted`
(a `break` from a fatal `except` clause ended it early). -/
inductive LoopState where
  | Done
  | Aborted
  deriving DecidableEq, Repr

/-- Observable result of running `main`'s loop: the 0-based indices of the
attempted cycles (each entry is one execution of the `try` block, i.e. one
data-source fetch attempt), total seconds slept, and the terminal state. -/
structure LoopResult where
  attempts : List Nat
  sleptSecs : Int
  state : LoopState
  deriving DecidableEq, Repr

/-- Whether one cycle's outcome `break`s the whole loop. -/
def cycleFatal : CycleResult → Bool
  | .success => false
  | .raised e => excBreaksLoop e

/-- The loop body of `main` (lines 134–181), with the per-cycle work
abstracted to its outcome.  `remaining = count - run_count` (so
`remaining > 0` iff `run_count < count`).  A fatal exception `break`s
before `run_count += 1`; otherwise `run_count += 1`, then
`if run_count >= count: break`, else sleep `interval` seconds if
`interval > 0` and 1 second otherwise, and loop. -/
def loopFrom (outcomes : Nat → CycleResult) (interval : Int) :
    Nat → Nat → LoopResult
  | 0, _ => ⟨[], 0, .Done⟩
  | remaining + 1, runCount =>
      if cycleFatal (outcomes runCount) then ⟨[runCount], 0, .Aborted⟩
      else if remaining == 0 then ⟨[runCount], 0, .Done⟩
      else
        let rest := loopFrom outcomes interval remaining (runCount + 1)
        ⟨runCount :: rest.attempts,
         (if interval > 0 then interval else 1) + rest.sleptSecs,
         rest.state⟩

/-- The scheduler loop of `main` for a configured run count and interval
(`run_count` starts at 0). -/
def runMainLoop (outcomes : Nat → CycleResult) (interval : Int) (count : Nat) :
    LoopResult :=
  loopFrom outcomes interval count 0

/-! ## Helper lemmas about the dict model -/

@[simp]
theorem dget_nil (k : String) : dget [] k = none := rfl

@[simp]
theorem dget_cons (p : String × Option Value) (rest : PyDict) (k : String) :
    dget (p :: rest) k = if p.1 == k then p.2 else dget rest k := by
  by_cases h : p.1 == k
  · simp [dget, List.find?_cons_of_pos, h]
  · simp only [Bool.not_eq_true] at h
    simp [dget, List.find?_cons_of_neg, h]

theorem dget_dset_self (d : PyDict) (k : String) (v : Option Value) :
    dget (dset d k v) k = v := by
  induction d with
  | nil => simp [dset]
  | cons p rest ih =>
      by_cases h : p.1 == k
      · simp [dset, h]
      · simp only [Bool.not_eq_true] at h
        simp [dset, h, ih]

theorem dget_dset_ne (d : PyDict) (k k' : String) (v : Option Value)
    (h : k' ≠ k) : dget (dset d k' v) k = dget d k := by
  induction d with
  | nil => simp [dset, h]
  | cons p rest ih =>
      by_cases hp : p.1 == k'
      · have hpk : (p.1 == k) = false := by
          simp only [beq_iff_eq] at hp ⊢
          simp [hp, h]
        simp [dset, hp, hpk, beq_iff_eq, h]
      · simp only [Bool.not_eq_true] at hp
        simp only [dset, hp, Bool.false_eq_true, if_false]
        simp [ih]

theorem dget_foldl_dset (data : PyDict) (fields : List String) (init : PyDict)
    (k : String) :
    dget (fields.foldl (fun r f => dset r f (dget data f)) init) k
      = if k ∈ fields then dget data k else dget init k := by
  induction fields generalizing init with
  | nil => simp
  | cons f rest ih =>
      simp only [List.foldl_cons, ih]
      by_cases hk : k ∈ rest
      · simp [hk]
      · by_cases hf : k = f
        · subst hf
          simp [hk, dget_dset_self]
        · simp [hk, hf, dget_dset_ne _ _ _ _ (Ne.symm hf)]

/-- When the resolved ip is a string, `computeVersion` succeeds and answers
by colon membership (the empty string is falsy, but it also contains no
colon, so the `"IPv4"` default agrees with the colon test). -/
theorem computeVersion_of_str (s : String) :
    computeVersion (some (Value.vstr s))
      = .ok (if containsColon s then "IPv6" else "IPv4") := by
  unfold computeVersion
  by_cases hs : s = ""
  · subst hs
    have hc : containsColon "" = false := by decide
    simp [otruthy, truthy, hc]
  · simp [otruthy, truthy, hs]

/-! ## C1 — version when the resolved ip is null -/

/-- C1 counterexample: on the empty raw record the resolved ip is null, yet
the normalized record does carry a `version` value, namely the default
string `"IPv4"` — the claim says `version` would be absent. -/
theorem C1_counterexample :
    resolvedIp rawEmpty = none ∧
    (normalize_data rawEmpty).toOption.map (fun n => dget n "version")
      = some (some (Value.vstr "IPv4")) ∧
    some (Value.vstr "IPv4") ≠ (none : Option Value) := by
  refine ⟨rfl, by decide, by decide⟩

/-- C1 (amended): for every raw record whose resolved ip value is null, the
normalized record produced by `normalize_data` has `version` present and
equal to the default string `"IPv4"` (it is never absent). -/
theorem C1_version_default_on_null_ip (data : RawRecord) (n : PyDict)
    (hip : resolvedIp data = none)
    (hok : normalize_data data = .ok n) :
    dget n "version" = some (Value.vstr "IPv4") := by
  unfold normalize_data at hok
  rw [hip] at hok
  simp only [computeVersion, otruthy, Bool.false_eq_true, if_false] at hok
  simp only [Except.ok.injEq] at hok
  subst hok
  simp

/-- C1 witness: the amended theorem applied to the empty raw record. -/
theorem C1_witness :
    resolvedIp rawEmpty = none ∧
    dget
      [ ("ip", none), ("version", some (Value.vstr "IPv4")), ("city", none),
        ("region", none), ("country", none), ("country_code", none),
        ("latitude", none), ("longitude", none), ("timezone", none),
        ("isp", none), ("asn", none), ("org", none) ] "version"
      = some (Value.vstr "IPv4") :=
  ⟨rfl, C1_version_default_on_null_ip rawEmpty _ rfl rfl⟩

/-! ## C2 — version decided by colon membership for string ips -/

/-- C2: for every raw record whose resolved ip value is a (non-null) string
`s`, `normalize_data` succeeds and the `version` field of its result is
`"IPv6"` iff `s` contains a colon, and `"IPv4"` iff it does not. -/
theorem C2_version_iff_colon (data : RawRecord) (s : String)
    (hip : resolvedIp data = some (Value.vstr s)) :
    ((normalize_data data).toOption.map (fun n => dget n "version")
        = some (some (Value.vstr "IPv6")) ↔ containsColon s = true) ∧
    ((normalize_data data).toOption.map (fun n => dget n "version")
        = some (some (Value.vstr "IPv4")) ↔ containsColon s = false) := by
  unfold normalize_data
  rw [hip, computeVersion_of_str]
  by_cases hc : containsColon s <;> simp [hc, Except.toOption]

/-- C2 witness: the theorem applied to a raw record whose `ip` key holds
the IPv6 string `"::1"`. -/
theorem C2_witness :
    resolvedIp (fun k => if k = "ip" then some (Value.vstr "::1") else none)
      = some (Value.vstr "::1") ∧
    (((normalize_data (fun k => if k = "ip" then some (Value.vstr "::1") else none)).toOption.map
          (fun n => dget n "version")
        = some (some (Value.vstr "IPv6")) ↔ containsColon "::1" = true) ∧
     ((normalize_data (fun k => if k = "ip" then some (Value.vstr "::1") else none)).toOption.map
          (fun n => dget n "version")
        = some (some (Value.vstr "IPv4")) ↔ containsColon "::1" = false)) :=
  ⟨by decide, C2_version_iff_colon _ "::1" (by decide)⟩

/-! ## C3 — candidate resolution order -/

/-- A raw record carrying `latitude = 0` (non-null but falsy) together with
`lat = 5`: real providers report latitude `0` on the equator. -/
def rawLat : RawRecord := fun k =>
  if k = "latitude" then some (.vnum 0)
  else if k = "lat" then some (.vnum 5)
  else none

/-- The record `normalize_data` produces for `rawLat`. -/
def rawLatNorm : PyDict :=
  [ ("ip", none), ("version", some (.vstr "IPv4")), ("city", none),
    ("region", none), ("country", none), ("country_code", none),
    ("latitude", some (.vnum 5)), ("longitude", none), ("timezone", none),
    ("isp", none), ("asn", none), ("org", none) ]

/-- C3 counterexample: in `{"latitude": 0, "lat": 5}` the first candidate
key `latitude` is present and non-null, yet `normalize_data` yields the
later candidate's value `5`: Python's `or` skips the falsy value `0`, so
"first non-null candidate wins" is not what the code implements. -/
theorem C3_counterexample :
    rawLat "latitude" = some (Value.vnum 0) ∧
    (normalize_data rawLat).toOption.map (fun n => dget n "latitude")
      = some (some (Value.vnum 5)) ∧
    some (Value.vnum 5) ≠ some (Value.vnum 0) := by
  refine ⟨by decide, by decide, by decide⟩

/-- C3 (amended): `normalize_data` resolves each canonical field by taking
the first truthy candidate, left to right (a null, absent, or falsy value —
empty string, `0`, `False` — is skipped), and when every candidate is falsy
the last candidate's value is used; equivalently, each field equals
`resolveCandidates` on the spec's candidate table. -/
theorem C3_first_truthy_candidate (data : RawRecord) (n : PyDict)
    (hok : normalize_data data = .ok n) :
    dget n "ip" = resolveCandidates data ["ip", "query", "ip_address"] ∧
    dget n "city" = resolveCandidates data ["city"] ∧
    dget n "region" = resolveCandidates data ["region", "region_name"] ∧
    dget n "country" = resolveCandidates data ["country_name", "country"] ∧
    dget n "country_code" = resolveCandidates data ["country", "country_code"] ∧
    dget n "latitude" = resolveCandidates data ["latitude", "lat"] ∧
    dget n "longitude" = resolveCandidates data ["longitude", "lon", "lng"] ∧
    dget n "timezone" = resolveCandidates data ["timezone"] ∧
    dget n "isp" = resolveCandidates data ["org", "isp"] ∧
    dget n "asn" = resolveCandidates data ["asn", "as"] ∧
    dget n "org" = resolveCandidates data ["org"] := by
  unfold normalize_data at hok
  cases hver : computeVersion (resolvedIp data) with
  | error e => rw [hver] at hok; exact absurd hok (by simp)
  | ok ver =>
      rw [hver] at hok
      simp only [Except.ok.injEq] at hok
      subst hok
      refine ⟨?_, ?_, ?_, ?_, ?_, ?_, ?_, ?_, ?_, ?_, ?_⟩ <;>
        simp [resolvedIp, resolveCandidates, pyOr]

/-- C3 witness: the amended theorem applied to `rawLat`, whose `latitude`
field resolves to the second candidate `lat = 5`. -/
theorem C3_witness :
    normalize_data rawLat = .ok rawLatNorm ∧
    (dget rawLatNorm "ip" = resolveCandidates rawLat ["ip", "query", "ip_address"] ∧
     dget rawLatNorm "city" = resolveCandidates rawLat ["city"] ∧
     dget rawLatNorm "region" = resolveCandidates rawLat ["region", "region_name"] ∧
     dget rawLatNorm "country" = resolveCandidates rawLat ["country_name", "country"] ∧
     dget rawLatNorm "country_code" = resolveCandidates rawLat ["country", "country_code"] ∧
     dget rawLatNorm "latitude" = resolveCandidates rawLat ["latitude", "lat"] ∧
     dget rawLatNorm "longitude" = resolveCandidates rawLat ["longitude", "lon", "lng"] ∧
     dget rawLatNorm "timezone" = resolveCandidates rawLat ["timezone"] ∧
     dget rawLatNorm "isp" = resolveCandidates rawLat ["org", "isp"] ∧
     dget rawLatNorm "asn" = resolveCandidates rawLat ["asn", "as"] ∧
     dget rawLatNorm "org" = resolveCandidates rawLat ["org"]) :=
  ⟨rfl, C3_first_truthy_candidate rawLat rawLatNorm rfl⟩

/-! ## C4 — never-throw and null propagation -/

/-- A raw record whose `ip` key holds the number `42` — it is missing the
optional candidate keys of every other canonical field. -/
def rawNumIp : RawRecord := fun k =>
  if k = "ip" then some (.vnum 42) else none

/-- C4 counterexample: `{"ip": 42}` is missing a subset of the optional
candidate keys, yet `normalize_data` raises `TypeError`: the resolved ip
`42` is truthy, so line 69 evaluates `":" in 42`, and `in` is not defined
on an `int`. -/
theorem C4_counterexample :
    rawNumIp "city" = none ∧
    normalize_data rawNumIp = .error PyError.typeError :=
  ⟨rfl, rfl⟩

/-- C4 (amended): for every raw record whose resolved ip value is null,
falsy, or a string, `normalize_data` raises no exception, and each
canonical field whose candidate keys are all missing is null in the
returned record. -/
theorem C4_no_raise_null_fields (data : RawRecord)
    (hsafe : otruthy (resolvedIp data) = false ∨
             ∃ s, resolvedIp data = some (Value.vstr s)) :
    (normalize_data data).toOption.isSome = true ∧
    (data "ip" = none → data "query" = none → data "ip_address" = none →
      (normalize_data data).toOption.map (fun n => dget n "ip") = some none) ∧
    (data "city" = none →
      (normalize_data data).toOption.map (fun n => dget n "city") = some none) ∧
    (data "region" = none → data "region_name" = none →
      (normalize_data data).toOption.map (fun n => dget n "region") = some none) ∧
    (data "country_name" = none → data "country" = none →
      (normalize_data data).toOption.map (fun n => dget n "country") = some none) ∧
    (data "country" = none → data "country_code" = none →
      (normalize_data data).toOption.map (fun n => dget n "country_code") = some none) ∧
    (data "latitude" = none → data "lat" = none →
      (normalize_data data).toOption.map (fun n => dget n "latitude") = some none) ∧
    (data "longitude" = none → data "lon" = none → data "lng" = none →
      (normalize_data data).toOption.map (fun n => dget n "longitude") = some none) ∧
    (data "timezone" = none →
      (normalize_data data).toOption.map (fun n => dget n "timezone") = some none) ∧
    (data "org" = none → data "isp" = none →
      (normalize_data data).toOption.map (fun n => dget n "isp") = some none) ∧
    (data "asn" = none → data "as" = none →
      (normalize_data data).toOption.map (fun n => dget n "asn") = some none) ∧
    (data "org" = none →
      (normalize_data data).toOption.map (fun n => dget n "org") = some none) := by
  obtain ⟨ver, hver⟩ : ∃ ver, computeVersion (resolvedIp data) = .ok ver := by
    rcases hsafe with h | ⟨s, hs⟩
    · exact ⟨"IPv4", by unfold computeVersion; simp [h]⟩
    · exact ⟨if containsColon s then "IPv6" else "IPv4",
        by rw [hs, computeVersion_of_str]⟩
  unfold normalize_data
  rw [hver]
  refine ⟨rfl, ?_, ?_, ?_, ?_, ?_, ?_, ?_, ?_, ?_, ?_, ?_⟩ <;>
    · intros
      simp_all [resolvedIp, pyOr, otruthy, Except.toOption]

/-- C4 witness: the amended theorem applied to the empty raw record (every
candidate key missing, resolved ip null). -/
theorem C4_witness :
    otruthy (resolvedIp rawEmpty) = false ∧
    ((normalize_data rawEmpty).toOption.isSome = true ∧
     (rawEmpty "ip" = none → rawEmpty "query" = none → rawEmpty "ip_address" = none →
       (normalize_data rawEmpty).toOption.map (fun n => dget n "ip") = some none) ∧
     (rawEmpty "city" = none →
       (normalize_data rawEmpty).toOption.map (fun n => dget n "city") = some none) ∧
     (rawEmpty "region" = none → rawEmpty "region_name" = none →
       (normalize_data rawEmpty).toOption.map (fun n => dget n "region") = some none) ∧
     (rawEmpty "country_name" = none → rawEmpty "country" = none →
       (normalize_data rawEmpty).toOption.map (fun n => dget n "country") = some none) ∧
     (rawEmpty "country" = none → rawEmpty "country_code" = none →
       (normalize_data rawEmpty).toOption.map (fun n => dget n "country_code") = some none) ∧
     (rawEmpty "latitude" = none → rawEmpty "lat" = none →
       (normalize_data rawEmpty).toOption.map (fun n => dget n "latitude") = some none) ∧
     (rawEmpty "longitude" = none → rawEmpty "lon" = none → rawEmpty "lng" = none →
       (normalize_data rawEmpty).toOption.map (fun n => dget n "longitude") = some none) ∧
     (rawEmpty "timezone" = none →
       (normalize_data rawEmpty).toOption.map (fun n => dget n "timezone") = some none) ∧
     (rawEmpty "org" = none → rawEmpty "isp" = none →
       (normalize_data rawEmpty).toOption.map (fun n => dget n "isp") = some none) ∧
     (rawEmpty "asn" = none → rawEmpty "as" = none →
       (normalize_data rawEmpty).toOption.map (fun n => dget n "asn") = some none) ∧
     (rawEmpty "org" = none →
       (normalize_data rawEmpty).toOption.map (fun n => dget n "org") = some none)) :=
  ⟨rfl, C4_no_raise_null_fields rawEmpty (Or.inl rfl)⟩

/-! ## C10 — the canonical key set of the normalized record -/

/-- A raw record whose `query` key holds the boolean `true`. -/
def rawBoolQuery : RawRecord := fun k =>
  if k = "query" then some (.vbool true) else none

/-- C10 counterexample: on the input mapping `{"query": true}` no
dictionary is returned at all — the resolved ip is the truthy non-string
`True`, so line 69 raises `TypeError` — hence "for every input mapping the
returned dictionary has the twelve keys" fails at this input. -/
theorem C10_counterexample :
    normalize_data rawBoolQuery = .error PyError.typeError ∧
    (normalize_data rawBoolQuery).toOption = none :=
  ⟨rfl, rfl⟩

/-- C10 (amended): whenever `normalize_data` does return a dictionary, that
dictionary has exactly the twelve canonical keys, in insertion order `ip`,
`version`, `city`, `region`, `country`, `country_code`, `latitude`,
`longitude`, `timezone`, `isp`, `asn`, `org` — no raw key is passed
through, none is omitted. -/
theorem C10_canonical_keys (data : RawRecord) (n : PyDict)
    (hok : normalize_data data = .ok n) :
    dkeys n = ["ip", "version", "city", "region", "country", "country_code",
               "latitude", "longitude", "timezone", "isp", "asn", "org"] := by
  unfold normalize_data at hok
  cases hver : computeVersion (resolvedIp data) with
  | error e => rw [hver] at hok; exact absurd hok (by simp)
  | ok ver =>
      rw [hver] at hok
      simp only [Except.ok.injEq] at hok
      subst hok
      rfl

/-- The spec's §8 example record `{"ip": "1.2.3.4", "city": "X"}`. -/
def raw124 : RawRecord := fun k =>
  if k = "ip" then some (.vstr "1.2.3.4")
  else if k = "city" then some (.vstr "X")
  else none

/-- The record `normalize_data` produces for `raw124`. -/
def raw124Norm : PyDict :=
  [ ("ip", some (.vstr "1.2.3.4")), ("version", some (.vstr "IPv4")),
    ("city", some (.vstr "X")), ("region", none), ("country", none),
    ("country_code", none), ("latitude", none), ("longitude", none),
    ("timezone", none), ("isp", none), ("asn", none), ("org", none) ]

/-- C10 witness: the amended theorem applied to the spec's example record. -/
theorem C10_witness :
    normalize_data raw124 = .ok raw124Norm ∧
    dkeys raw124Norm
      = ["ip", "version", "city", "region", "country", "country_code",
         "latitude", "longitude", "timezone", "isp", "asn", "org"] :=
  ⟨rfl, C10_canonical_keys raw124 raw124Norm rfl⟩

/-! ## C5 — CSV history writer -/

/-- When `"timestamp"` is not among the selected fields, a data row is the
clock value with `"Z"` appended, followed by the record's value of each
selected field in order. -/
theorem historyRow_eq (fields : List String) (data : PyDict) (now : String)
    (hts : "timestamp" ∉ fields) :
    historyRow fields data now
      = (now ++ "Z") :: fields.map (fun f => csvCell (dget data f)) := by
  unfold historyRow
  rw [List.map_cons]
  congr 1
  · unfold historyRowDict
    rw [dget_foldl_dset]
    simp [hts, csvCell]
  · apply List.map_congr_left
    intro f hf
    unfold historyRowDict
    rw [dget_foldl_dset]
    simp [hf]

/-- C5 counterexample: selecting the field name `"timestamp"` makes the
fieldnames list `["timestamp", "timestamp"]`, and the `row[f] =
data.get(f)` loop overwrites the clock value in the row dict, so the data
row's timestamp column is the empty cell, not the current UTC time with a
trailing `"Z"`. -/
theorem C5_counterexample :
    append_history_csv none ["timestamp"] [] "2024-01-01T00:00:00"
      = [["timestamp", "timestamp"], ["", ""]] ∧
    ("" : String) ≠ "2024-01-01T00:00:00" ++ "Z" :=
  ⟨rfl, by decide⟩

/-- C5 (amended): for every path, record and field list not containing the
name `"timestamp"`, a call on a fresh path writes exactly the header row
`["timestamp"] ++ fields` followed by exactly one data row, and a second
call on the now-existing path appends exactly one more data row without
repeating the header; each data row's timestamp column is the current UTC
ISO-8601 time with `"Z"` appended. -/
theorem C5_history_rows (fields : List String) (d1 d2 : PyDict) (t1 t2 : String)
    (hts : "timestamp" ∉ fields) :
    append_history_csv none fields d1 t1
      = [("timestamp" :: fields),
         ((t1 ++ "Z") :: fields.map (fun f => csvCell (dget d1 f)))] ∧
    append_history_csv (some (append_history_csv none fields d1 t1)) fields d2 t2
      = [("timestamp" :: fields),
         ((t1 ++ "Z") :: fields.map (fun f => csvCell (dget d1 f))),
         ((t2 ++ "Z") :: fields.map (fun f => csvCell (dget d2 f)))] := by
  have h1 := historyRow_eq fields d1 t1 hts
  have h2 := historyRow_eq fields d2 t2 hts
  constructor
  · simp [append_history_csv, h1]
  · simp [append_history_csv, h1, h2]

/-- C5 witness: the amended theorem applied to the field list
`["ip", "city"]`, two records, and two clock readings. -/
theorem C5_witness :
    "timestamp" ∉ (["ip", "city"] : List String) ∧
    (append_history_csv none ["ip", "city"]
        [("ip", some (Value.vstr "1.2.3.4"))] "2024-01-01T00:00:00"
      = [("timestamp" :: ["ip", "city"]),
         (("2024-01-01T00:00:00" ++ "Z")
           :: ["ip", "city"].map (fun f => csvCell (dget [("ip", some (Value.vstr "1.2.3.4"))] f)))] ∧
     append_history_csv
        (some (append_history_csv none ["ip", "city"]
          [("ip", some (Value.vstr "1.2.3.4"))] "2024-01-01T00:00:00"))
        ["ip", "city"] [("ip", some (Value.vstr "::1"))] "2024-01-01T00:05:00"
      = [("timestamp" :: ["ip", "city"]),
         (("2024-01-01T00:00:00" ++ "Z")
           :: ["ip", "city"].map (fun f => csvCell (dget [("ip", some (Value.vstr "1.2.3.4"))] f))),
         (("2024-01-01T00:05:00" ++ "Z")
           :: ["ip", "city"].map (fun f => csvCell (dget [("ip", some (Value.vstr "::1"))] f)))]) :=
  ⟨by decide,
   C5_history_rows ["ip", "city"] [("ip", some (Value.vstr "1.2.3.4"))]
     [("ip", some (Value.vstr "::1"))] "2024-01-01T00:00:00" "2024-01-01T00:05:00"
     (by decide)⟩

/-! ## C6, C7, C8 — scheduler-loop control flow -/

/-- One unfolding step of `loopFrom` in the `remaining + 1` case. -/
theorem loopFrom_succ (outcomes : Nat → CycleResult) (interval : Int)
    (r runCount : Nat) :
    loopFrom outcomes interval (r + 1) runCount
      = if cycleFatal (outcomes runCount) then ⟨[runCount], 0, .Aborted⟩
        else if r == 0 then ⟨[runCount], 0, .Done⟩
        else
          let rest := loopFrom outcomes interval r (runCount + 1)
          ⟨runCount :: rest.attempts,
           (if interval > 0 then interval else 1) + rest.sleptSecs,
           rest.state⟩ := rfl

/-- When no attempted cycle's outcome is fatal, the loop attempts exactly
the remaining cycle indices in order and ends in state `Done`. -/
theorem loopFrom_done_of_no_fatal (outcomes : Nat → CycleResult) (interval : Int) :
    ∀ (remaining runCount : Nat),
      (∀ i, i < remaining → cycleFatal (outcomes (runCount + i)) = false) →
      (loopFrom outcomes interval remaining runCount).attempts
          = List.range' runCount remaining ∧
      (loopFrom outcomes interval remaining runCount).state = LoopState.Done := by
  intro remaining
  induction remaining with
  | zero => intro runCount _; simp [loopFrom]
  | succ r ih =>
      intro runCount h
      have h0 : cycleFatal (outcomes runCount) = false := by
        simpa using h 0 (Nat.succ_pos r)
      cases r with
      | zero => simp [loopFrom, h0, List.range']
      | succ r2 =>
          have ih2 := ih (runCount + 1) (fun i hi => by
            have := h (i + 1) (by omega)
            simpa [Nat.add_comm, Nat.add_left_comm, Nat.add_assoc] using this)
          have hbeq : ((r2 + 1 : Nat) == 0) = false := rfl
          constructor
          · rw [loopFrom_succ]
            simp only [h0, Bool.false_eq_true, if_false, hbeq, ih2.1]
            simp [List.range'_succ]
          · rw [loopFrom_succ]
            simp only [h0, Bool.false_eq_true, if_false, hbeq, ih2.2]

/-- C6: with `count = 3`, `interval = 0` and every cycle's data-source call
succeeding, the loop attempts exactly the three cycles `0`, `1`, `2` — no
fourth fetch — and terminates in state `Done`. -/
theorem C6_three_cycles (outcomes : Nat → CycleResult)
    (h : ∀ i, i < 3 → outcomes i = CycleResult.success) :
    (runMainLoop outcomes 0 3).attempts = [0, 1, 2] ∧
    (runMainLoop outcomes 0 3).state = LoopState.Done := by
  have hmain := loopFrom_done_of_no_fatal outcomes 0 3 0 (fun i hi => by
    rw [Nat.zero_add, h i hi]; rfl)
  exact ⟨hmain.1, hmain.2⟩

/-- C6 witness: the theorem applied to an all-success outcome sequence. -/
theorem C6_witness :
    (runMainLoop (fun _ => CycleResult.success) 0 3).attempts = [0, 1, 2] ∧
    (runMainLoop (fun _ => CycleResult.success) 0 3).state = LoopState.Done :=
  C6_three_cycles (fun _ => CycleResult.success) (fun _ _ => rfl)

/-- C7: whatever run count (≥ 1, as the spec's scheduler state machine
fixes) and interval are configured, when the first cycle raises
`FileNotFoundError` (mock file missing) or `json.JSONDecodeError` (mock
file holds invalid JSON), the loop `break`s after exactly that one
attempted cycle — no further fetch — ending in state `Aborted`. -/
theorem C7_mock_failure_aborts (count : Nat) (interval : Int)
    (outcomes : Nat → CycleResult) (hcount : 1 ≤ count)
    (h0 : outcomes 0 = CycleResult.raised PyExc.fileNotFound ∨
          outcomes 0 = CycleResult.raised PyExc.jsonDecode) :
    runMainLoop outcomes interval count = ⟨[0], 0, LoopState.Aborted⟩ := by
  obtain ⟨c, rfl⟩ : ∃ c, count = c + 1 :=
    ⟨count - 1, (Nat.succ_pred_eq_of_pos hcount).symm⟩
  have hf : cycleFatal (outcomes 0) = true := by
    rcases h0 with h | h <;> rw [h] <;> rfl
  simp [runMainLoop, loopFrom, hf]

/-- C7 witness: the theorem applied to `count = 7` and a mock file that is
missing on every cycle. -/
theorem C7_witness :
    1 ≤ 7 ∧
    runMainLoop (fun _ => CycleResult.raised PyExc.fileNotFound) 0 7
      = ⟨[0], 0, LoopState.Aborted⟩ :=
  ⟨by norm_num,
   C7_mock_failure_aborts 7 0 (fun _ => CycleResult.raised PyExc.fileNotFound)
     (by norm_num) (Or.inl rfl)⟩

/-- C8: in live mode an invalid-JSON response body raises
`requests.exceptions.JSONDecodeError`, which subclasses
`requests.RequestException`, so the first `except` clause catches it and
does not `break`: when every cycle either succeeds or raises that error,
the loop still attempts all `count` configured cycles and ends `Done`. -/
theorem C8_live_decode_recoverable (count : Nat) (interval : Int)
    (outcomes : Nat → CycleResult)
    (h : ∀ i, i < count → outcomes i = CycleResult.success ∨
              outcomes i = CycleResult.raised PyExc.requestsJsonDecode) :
    excBreaksLoop PyExc.requestsJsonDecode = false ∧
    (runMainLoop outcomes interval count).attempts = List.range count ∧
    (runMainLoop outcomes interval count).state = LoopState.Done := by
  have hmain := loopFrom_done_of_no_fatal outcomes interval count 0 (fun i hi => by
    rcases h i (by simpa using hi) with hh | hh <;> rw [Nat.zero_add, hh] <;> rfl)
  refine ⟨rfl, ?_, hmain.2⟩
  rw [List.range_eq_range']
  exact hmain.1

/-- C8 witness: the theorem applied to `count = 2` with every live response
body malformed. -/
theorem C8_witness :
    excBreaksLoop PyExc.requestsJsonDecode = false ∧
    (runMainLoop (fun _ => CycleResult.raised PyExc.requestsJsonDecode) 0 2).attempts
      = List.range 2 ∧
    (runMainLoop (fun _ => CycleResult.raised PyExc.requestsJsonDecode) 0 2).state
      = LoopState.Done :=
  C8_live_decode_recoverable 2 0
    (fun _ => CycleResult.raised PyExc.requestsJsonDecode)
    (fun _ _ => Or.inr rfl)

/-! ## C9 — manual-IP override -/

/-- C9: for every normalized record and non-empty manual override string
`m`, the override sets `ip` to `m` and recomputes `version` from `m` by the
colon test, regardless of the record's previous `ip` and `version`. -/
theorem C9_manual_ip_override (data : PyDict) (m : String) (hm : m ≠ "") :
    dget (applyManualIp data (some m)) "ip" = some (Value.vstr m) ∧
    dget (applyManualIp data (some m)) "version"
      = some (Value.vstr (if containsColon m then "IPv6" else "IPv4")) := by
  have hm2 : (m == "") = false := by simpa using hm
  unfold applyManualIp
  simp only [hm2, Bool.false_eq_true, if_false]
  constructor
  · rw [dget_dset_ne _ _ _ _ (by decide)]
    exact dget_dset_self _ _ _
  · exact dget_dset_self _ _ _

/-- A normalized record that itself carries an IPv4 address. -/
def overrideSample : PyDict :=
  [("ip", some (.vstr "9.9.9.9")), ("version", some (.vstr "IPv4"))]

/-- C9 witness: overriding with `"2001:db8::1"` on a record whose own ip is
IPv4 forces `version = "IPv6"`. -/
theorem C9_witness :
    "2001:db8::1" ≠ "" ∧
    dget (applyManualIp overrideSample (some "2001:db8::1")) "ip"
      = some (Value.vstr "2001:db8::1") ∧
    dget (applyManualIp overrideSample (some "2001:db8::1")) "version"
      = some (Value.vstr "IPv6") := by
  have h := C9_manual_ip_override overrideSample "2001:db8::1" (by decide)
  have hc : containsColon "2001:db8::1" = true := by decide
  refine ⟨by decide, h.1, ?_⟩
  rw [h.2, hc]
  rfl

end IpChecker
